import Mathlib

/-
Shallow embedding of the carrier verification rule engine
(python/carrier_verifier.py, class CarrierVerifier).

Modelling conventions:
- Python strings are Lean `String`; `dict.get` with a default becomes an
  `Option` field read with `Option.getD`; a Python truthiness test on an
  optional string (`if phone_number:` / `if data.get(...)`) is false exactly
  for `none` and the empty string.
- The verdicts are the literal strings the source returns
  ("ACCEPT", "REVIEW", "DENY", "PASS", "FAIL", "SKIPPED").
- Machine floats in the out-of-service-rate and freshness computations are
  modelled in ℚ; the claims under study only touch boundaries (12 and 24
  months, i.e. 360 and 720 days over 30.0) where float and rational
  arithmetic agree exactly.
- `dateutil.parser.parse` together with `datetime.now()` is modelled by a
  parse oracle `parseDate : String → Option Int` returning the parsed date
  as a day number (`none` models a raised parse exception, which the source
  catches) and a clock value `now : Int` in days, so that
  `(datetime.now() - mcs_150_date).days` becomes `now - t`.
- Python integer division by zero raises `ZeroDivisionError`; the
  `..._checked` variants of the two rate rules instrument the division in
  the `Except` monad to show the error path is unreachable.
-/

namespace CarrierVerifier

/-- `s.replace c ""` for a single-character pattern `c`: removes every
occurrence of the character, keeping everything else in order. -/
def removeChar (c : Char) (s : String) : String :=
  String.mk (s.data.filter (fun x => x != c))

/-- Python `str.upper()`, modelled character by character (faithful on the
ASCII data of this domain). This is the same map as `String.toUpper`, written
by structural recursion over the character list so that it evaluates. -/
def pyUpper (s : String) : String :=
  String.mk (s.data.map Char.toUpper)

/-- The phone normalization of Rule 1:
`.replace(" ", "").replace("-", "").replace("(", "").replace(")", "")`. -/
def normalizePhone (s : String) : String :=
  removeChar ')' (removeChar '(' (removeChar '-' (removeChar ' ' s)))

/-- One `vehicle` / `driver` / `hazmat` sub-record of `us_inspections`. -/
structure InspectionRecord where
  inspections : Nat
  out_of_service : Nat
deriving DecidableEq

/-- The `united_states_crashes` sub-record. -/
structure CrashRecord where
  tow : Nat
  injury : Nat
  fatal : Nat
deriving DecidableEq

/-- The carrier snapshot returned by the data provider, with the fields the
rule engine reads. Optional fields model keys that may be absent. -/
structure CarrierSnapshot where
  legal_name : Option String
  dba_name : Option String
  phone : Option String
  operating_status : Option String
  mcs_150_form_date : Option String
  vehicle : InspectionRecord
  driver : InspectionRecord
  hazmat : InspectionRecord
  united_states_crashes : CrashRecord
  power_units : Nat
  safety_rating : Option String
deriving DecidableEq

/-- Rule 2: Authority Status (`verify_authority_status`). -/
def verify_authority_status (data : CarrierSnapshot) : String :=
  let operating_status := pyUpper (data.operating_status.getD "")
  if operating_status = "ACTIVE" ∨ operating_status = "AUTHORIZED" then
    "ACCEPT"
  else if operating_status = "NOT AUTHORIZED" ∨ operating_status = "INACTIVE" ∨
      operating_status = "OUT OF SERVICE" then
    "DENY"
  else
    "REVIEW"

/-- Rule 3: Data Freshness (`verify_data_freshness`). `parseDate` models
`dateutil.parser.parse` as a day-number oracle, with `none` standing for a
raised parse exception — caught by the `except Exception` clause and mapped
to DENY. `now` is `datetime.now()` as a day number; `months_old` is the
float `(datetime.now() - mcs_150_date).days / 30.0`, modelled in ℚ. The
leading `if not mcs_150_date_str` is Python truthiness: it fires on a
missing key and on the empty string. -/
def verify_data_freshness (parseDate : String → Option Int) (now : Int)
    (data : CarrierSnapshot) : String :=
  match data.mcs_150_form_date with
  | none => "DENY"
  | some mcs_150_date_str =>
    if mcs_150_date_str = "" then "DENY"
    else
      match parseDate mcs_150_date_str with
      | none => "DENY"
      | some mcs_150_date =>
        let months_old : ℚ := ((now - mcs_150_date : Int) : ℚ) / 30
        if months_old ≤ 12 then "ACCEPT"
        else if months_old ≤ 24 then "REVIEW"
        else "DENY"

/-- Rule 4: Vehicle Out-of-Service Rate (`verify_vehicle_oos_rate`). -/
def verify_vehicle_oos_rate (data : CarrierSnapshot) : String :=
  let inspections := data.vehicle.inspections
  let out_of_service := data.vehicle.out_of_service
  if inspections = 0 then "REVIEW"
  else
    let oos_rate : ℚ := ((out_of_service : ℚ) / (inspections : ℚ)) * 100
    if oos_rate ≤ 25 then "ACCEPT"
    else if oos_rate ≤ 30 then "REVIEW"
    else "DENY"

/-- Rule 5: Driver Out-of-Service Rate (`verify_driver_oos_rate`). -/
def verify_driver_oos_rate (data : CarrierSnapshot) : String :=
  let inspections := data.driver.inspections
  let out_of_service := data.driver.out_of_service
  if inspections = 0 then "REVIEW"
  else
    let oos_rate : ℚ := ((out_of_service : ℚ) / (inspections : ℚ)) * 100
    if oos_rate ≤ 7 then "ACCEPT"
    else if oos_rate ≤ 10 then "REVIEW"
    else "DENY"

/-- Python division, instrumented: raises `ZeroDivisionError` on a zero
divisor, as `out_of_service / inspections` would. -/
def pydiv (a b : ℚ) : Except String ℚ :=
  if b = 0 then Except.error "ZeroDivisionError" else Except.ok (a / b)

/-- Instrumented variant of `verify_vehicle_oos_rate`: the division is
performed in the `Except` monad so that a divide-by-zero, were it reachable,
would surface as an error value. -/
def verify_vehicle_oos_rate_checked (data : CarrierSnapshot) :
    Except String String :=
  let inspections := data.vehicle.inspections
  let out_of_service := data.vehicle.out_of_service
  if inspections = 0 then Except.ok "REVIEW"
  else
    match pydiv (out_of_service : ℚ) (inspections : ℚ) with
    | Except.error e => Except.error e
    | Except.ok q =>
      let oos_rate := q * 100
      if oos_rate ≤ 25 then Except.ok "ACCEPT"
      else if oos_rate ≤ 30 then Except.ok "REVIEW"
      else Except.ok "DENY"

/-- Instrumented variant of `verify_driver_oos_rate`, as for the vehicle
rate. -/
def verify_driver_oos_rate_checked (data : CarrierSnapshot) :
    Except String String :=
  let inspections := data.driver.inspections
  let out_of_service := data.driver.out_of_service
  if inspections = 0 then Except.ok "REVIEW"
  else
    match pydiv (out_of_service : ℚ) (inspections : ℚ) with
    | Except.error e => Except.error e
    | Except.ok q =>
      let oos_rate := q * 100
      if oos_rate ≤ 7 then Except.ok "ACCEPT"
      else if oos_rate ≤ 10 then Except.ok "REVIEW"
      else Except.ok "DENY"

/-- Rule 6: Crash History (`verify_crash_history`). -/
def verify_crash_history (data : CarrierSnapshot) : String :=
  let tow := data.united_states_crashes.tow
  let injury := data.united_states_crashes.injury
  let fatal := data.united_states_crashes.fatal
  if fatal > 0 ∨ injury ≥ 2 then "DENY"
  else if injury = 1 then "REVIEW"
  else if tow ≤ 1 then "ACCEPT"
  else "REVIEW"

/-- Rule 7: Inspection Volume (`verify_inspection_volume`). -/
def verify_inspection_volume (data : CarrierSnapshot) : String :=
  let total_inspections :=
    data.vehicle.inspections + data.driver.inspections + data.hazmat.inspections
  if total_inspections < 10 then "REVIEW" else "ACCEPT"

/-- Rule 8: Fleet Size (`verify_fleet_size`). -/
def verify_fleet_size (data : CarrierSnapshot) : String :=
  let power_units := data.power_units
  if power_units ≥ 5 then "ACCEPT"
  else if power_units ≥ 2 then "REVIEW"
  else "DENY"

/-- Rule 10: Safety Rating (`verify_safety_rating`). The source expression
`data.get("safety_rating", "").upper() if data.get("safety_rating") else
"NOT RATED"` tests truthiness: a missing key, a null value and the empty
string all fall to "NOT RATED". -/
def verify_safety_rating (data : CarrierSnapshot) : String :=
  let safety_rating :=
    match data.safety_rating with
    | none => "NOT RATED"
    | some s => if s = "" then "NOT RATED" else pyUpper s
  if safety_rating = "SATISFACTORY" then "ACCEPT"
  else if safety_rating = "CONDITIONAL" ∨ safety_rating = "UNSATISFACTORY" then
    "DENY"
  else
    "REVIEW"

/-- The result record built by `verify_carrier`. `final_decision` starts as
`None` in the source, hence the `Option`; `raw_data` is attached only on the
non-short-circuit return. -/
structure VerificationResult where
  usdot : String
  carrier_name : String
  dba_name : String
  checks : List (String × String)
  final_decision : Option String
  reason : String
  raw_data : Option CarrierSnapshot
deriving DecidableEq

/-- Python truthiness of the optional `phone_number` argument:
`if phone_number:` is false for `None` and for the empty string. -/
def truthy : Option String → Bool
  | none => false
  | some s => s != ""

/-- `verify_carrier`, with the snapshot passed in place of the HTTP fetch
(`fetch_carrier_data` is outside the core). The checks dict is an ordered
association list, in insertion order. -/
def verify_carrier (parseDate : String → Option Int) (now : Int)
    (usdot : String) (data : CarrierSnapshot) (phone_number : Option String) :
    VerificationResult :=
  let carrier_name := data.legal_name.getD "Unknown"
  let dba_name := data.dba_name.getD ""
  let finish : String → VerificationResult := fun identity_verdict =>
    let checks : List (String × String) :=
      [ ("identity_verification", identity_verdict),
        ("authority_status", verify_authority_status data),
        ("data_freshness", verify_data_freshness parseDate now data),
        ("vehicle_oos_rate", verify_vehicle_oos_rate data),
        ("driver_oos_rate", verify_driver_oos_rate data),
        ("crash_history", verify_crash_history data),
        ("inspection_volume", verify_inspection_volume data),
        ("fleet_size", verify_fleet_size data),
        ("safety_rating", verify_safety_rating data) ]
    let check_results := checks.map Prod.snd
    let deny_count := check_results.count "DENY"
    let review_count := check_results.count "REVIEW"
    if deny_count > 0 then
      ⟨usdot, carrier_name, dba_name, checks, some "AUTO-REJECT",
        toString deny_count ++ " DENY flag(s) found", some data⟩
    else if review_count ≥ 2 then
      ⟨usdot, carrier_name, dba_name, checks, some "CONDITIONAL_APPROVAL",
        toString review_count ++ " REVIEW flag(s) - requires increased monitoring",
        some data⟩
    else
      ⟨usdot, carrier_name, dba_name, checks, some "FULL_APPROVAL",
        "All checks passed", some data⟩
  if truthy phone_number then
    let fmcsa_phone := normalizePhone (data.phone.getD "")
    let provided_phone := normalizePhone (phone_number.getD "")
    if fmcsa_phone = provided_phone then
      finish "PASS"
    else
      ⟨usdot, carrier_name, dba_name, [("identity_verification", "FAIL")],
        some "AUTO-REJECT", "Phone number mismatch", none⟩
  else
    finish "SKIPPED"

/-- The eight rule entries of the checks map, in the insertion order of the
source, excluding the identity entry. -/
def ruleChecks (parseDate : String → Option Int) (now : Int)
    (data : CarrierSnapshot) : List (String × String) :=
  [ ("authority_status", verify_authority_status data),
    ("data_freshness", verify_data_freshness parseDate now data),
    ("vehicle_oos_rate", verify_vehicle_oos_rate data),
    ("driver_oos_rate", verify_driver_oos_rate data),
    ("crash_history", verify_crash_history data),
    ("inspection_volume", verify_inspection_volume data),
    ("fleet_size", verify_fleet_size data),
    ("safety_rating", verify_safety_rating data) ]

/-- The eight rule verdicts, in order. -/
def ruleVerdicts (parseDate : String → Option Int) (now : Int)
    (data : CarrierSnapshot) : List String :=
  (ruleChecks parseDate now data).map Prod.snd

/-- The final-decision aggregation tail of `verify_carrier`, parameterized by
the assembled checks list; the three non-error entry paths of the source all
flow into this computation. -/
def aggregate (usdot : String) (data : CarrierSnapshot)
    (checks : List (String × String)) : VerificationResult :=
  let check_results := checks.map Prod.snd
  let deny_count := check_results.count "DENY"
  let review_count := check_results.count "REVIEW"
  if deny_count > 0 then
    ⟨usdot, data.legal_name.getD "Unknown", data.dba_name.getD "", checks,
      some "AUTO-REJECT", toString deny_count ++ " DENY flag(s) found",
      some data⟩
  else if review_count ≥ 2 then
    ⟨usdot, data.legal_name.getD "Unknown", data.dba_name.getD "", checks,
      some "CONDITIONAL_APPROVAL",
      toString review_count ++ " REVIEW flag(s) - requires increased monitoring",
      some data⟩
  else
    ⟨usdot, data.legal_name.getD "Unknown", data.dba_name.getD "", checks,
      some "FULL_APPROVAL", "All checks passed", some data⟩

theorem aggregate_checks (usdot : String) (data : CarrierSnapshot)
    (checks : List (String × String)) :
    (aggregate usdot data checks).checks = checks := by
  simp only [aggregate]
  split_ifs <;> rfl

theorem verify_carrier_skip (parseDate : String → Option Int) (now : Int)
    (usdot : String) (data : CarrierSnapshot) (p : Option String)
    (hp : truthy p = false) :
    verify_carrier parseDate now usdot data p =
      aggregate usdot data
        (("identity_verification", "SKIPPED") :: ruleChecks parseDate now data) := by
  simp only [verify_carrier, aggregate, ruleChecks, hp, Bool.false_eq_true,
    if_false]

theorem verify_carrier_pass (parseDate : String → Option Int) (now : Int)
    (usdot : String) (data : CarrierSnapshot) (p : Option String)
    (hp : truthy p = true)
    (heq : normalizePhone (data.phone.getD "") = normalizePhone (p.getD "")) :
    verify_carrier parseDate now usdot data p =
      aggregate usdot data
        (("identity_verification", "PASS") :: ruleChecks parseDate now data) := by
  simp only [verify_carrier, aggregate, ruleChecks, hp, if_true, heq, if_pos]

theorem verify_carrier_fail (parseDate : String → Option Int) (now : Int)
    (usdot : String) (data : CarrierSnapshot) (p : Option String)
    (hp : truthy p = true)
    (hne : normalizePhone (data.phone.getD "") ≠ normalizePhone (p.getD "")) :
    verify_carrier parseDate now usdot data p =
      ⟨usdot, data.legal_name.getD "Unknown", data.dba_name.getD "",
        [("identity_verification", "FAIL")], some "AUTO-REJECT",
        "Phone number mismatch", none⟩ := by
  simp only [verify_carrier, hp, if_true]
  rw [if_neg hne]

theorem verify_carrier_not_shortcircuited (parseDate : String → Option Int)
    (now : Int) (usdot : String) (data : CarrierSnapshot) (p : Option String)
    (hnsc : truthy p = true →
      normalizePhone (data.phone.getD "") = normalizePhone (p.getD "")) :
    ∃ iv, ((iv == "DENY") = false ∧ (iv == "REVIEW") = false) ∧
      (iv = "PASS" ∨ iv = "SKIPPED") ∧
      verify_carrier parseDate now usdot data p =
        aggregate usdot data
          (("identity_verification", iv) :: ruleChecks parseDate now data) := by
  cases hp : truthy p with
  | false =>
    exact ⟨"SKIPPED", ⟨by decide, by decide⟩, Or.inr rfl,
      verify_carrier_skip parseDate now usdot data p hp⟩
  | true =>
    exact ⟨"PASS", ⟨by decide, by decide⟩, Or.inl rfl,
      verify_carrier_pass parseDate now usdot data p hp (hnsc hp)⟩

/-- Claim C9: the rule engine is deterministic — two evaluations of
`verify_carrier` on the same snapshot, claimed phone, parse oracle and clock
value produce identical results. -/
theorem C9_verify_carrier_deterministic (parseDate : String → Option Int)
    (now : Int) (usdot : String) (data : CarrierSnapshot)
    (phone_number : Option String) (r1 r2 : VerificationResult)
    (h1 : verify_carrier parseDate now usdot data phone_number = r1)
    (h2 : verify_carrier parseDate now usdot data phone_number = r2) :
    r1 = r2 := by
  rw [← h1, ← h2]

/-- Claim C5: the crash-history conditions are evaluated in order with first
match winning: fatal > 0 or injury ≥ 2 gives DENY; else injury = 1 gives
REVIEW; else tow ≤ 1 gives ACCEPT; else (tow ≥ 2, no injury, no fatality)
gives REVIEW; in particular fatal = 0, injury = 1, tow = 5 gives REVIEW. -/
theorem C5_crash_history_first_match (data : CarrierSnapshot) :
    (data.united_states_crashes.fatal > 0 ∨ data.united_states_crashes.injury ≥ 2 →
      verify_crash_history data = "DENY") ∧
    (data.united_states_crashes.fatal = 0 → data.united_states_crashes.injury = 1 →
      verify_crash_history data = "REVIEW") ∧
    (data.united_states_crashes.fatal = 0 → data.united_states_crashes.injury = 0 →
      data.united_states_crashes.tow ≤ 1 → verify_crash_history data = "ACCEPT") ∧
    (data.united_states_crashes.fatal = 0 → data.united_states_crashes.injury = 0 →
      data.united_states_crashes.tow ≥ 2 → verify_crash_history data = "REVIEW") ∧
    (data.united_states_crashes.fatal = 0 → data.united_states_crashes.injury = 1 →
      data.united_states_crashes.tow = 5 → verify_crash_history data = "REVIEW") := by
  refine ⟨fun h => ?_, fun hf hi => ?_, fun hf hi ht => ?_, fun hf hi ht => ?_,
    fun hf hi ht => ?_⟩ <;>
    simp only [verify_crash_history] <;>
    split_ifs <;>
    first
      | rfl
      | (exfalso; omega)

/-- Claim C6: the vehicle and driver out-of-service-rate rules return REVIEW
when the respective inspections count is zero, and the division computing the
rate is never performed on a zero divisor: the instrumented variants, in
which a zero divisor raises as in Python, always return `Except.ok` of the
uninstrumented verdict. -/
theorem C6_oos_rate_division_safe (data : CarrierSnapshot) :
    (data.vehicle.inspections = 0 → verify_vehicle_oos_rate data = "REVIEW") ∧
    (data.driver.inspections = 0 → verify_driver_oos_rate data = "REVIEW") ∧
    verify_vehicle_oos_rate_checked data =
      Except.ok (verify_vehicle_oos_rate data) ∧
    verify_driver_oos_rate_checked data =
      Except.ok (verify_driver_oos_rate data) := by
  refine ⟨fun h => ?_, fun h => ?_, ?_, ?_⟩
  · simp [verify_vehicle_oos_rate, h]
  · simp [verify_driver_oos_rate, h]
  · by_cases h : data.vehicle.inspections = 0
    · simp [verify_vehicle_oos_rate_checked, verify_vehicle_oos_rate, h]
    · have hb : ((data.vehicle.inspections : ℚ)) ≠ 0 := Nat.cast_ne_zero.mpr h
      simp only [verify_vehicle_oos_rate_checked, verify_vehicle_oos_rate,
        pydiv, if_neg h, if_neg hb]
      split_ifs <;> rfl
  · by_cases h : data.driver.inspections = 0
    · simp [verify_driver_oos_rate_checked, verify_driver_oos_rate, h]
    · have hb : ((data.driver.inspections : ℚ)) ≠ 0 := Nat.cast_ne_zero.mpr h
      simp only [verify_driver_oos_rate_checked, verify_driver_oos_rate,
        pydiv, if_neg h, if_neg hb]
      split_ifs <;> rfl

/-- Claim C7: authority status is classified on the upper-cased
`operating_status`: any casing of active/authorized gives ACCEPT, any casing
of not authorized/inactive/out of service gives DENY, and every other value,
including a missing or empty string, gives REVIEW. -/
theorem C7_authority_status_cases (data : CarrierSnapshot) :
    (pyUpper (data.operating_status.getD "") = "ACTIVE" ∨
       pyUpper (data.operating_status.getD "") = "AUTHORIZED" →
      verify_authority_status data = "ACCEPT") ∧
    (pyUpper (data.operating_status.getD "") = "NOT AUTHORIZED" ∨
       pyUpper (data.operating_status.getD "") = "INACTIVE" ∨
       pyUpper (data.operating_status.getD "") = "OUT OF SERVICE" →
      verify_authority_status data = "DENY") ∧
    (¬(pyUpper (data.operating_status.getD "") = "ACTIVE" ∨
        pyUpper (data.operating_status.getD "") = "AUTHORIZED") →
      ¬(pyUpper (data.operating_status.getD "") = "NOT AUTHORIZED" ∨
        pyUpper (data.operating_status.getD "") = "INACTIVE" ∨
        pyUpper (data.operating_status.getD "") = "OUT OF SERVICE") →
      verify_authority_status data = "REVIEW") ∧
    (data.operating_status = none ∨ data.operating_status = some "" →
      verify_authority_status data = "REVIEW") := by
  refine ⟨fun h => ?_, fun h => ?_, fun h1 h2 => ?_, fun h => ?_⟩
  · simp only [verify_authority_status]
    rw [if_pos h]
  · have h1 : ¬(pyUpper (data.operating_status.getD "") = "ACTIVE" ∨
        pyUpper (data.operating_status.getD "") = "AUTHORIZED") := by
      rcases h with h | h | h <;> rw [h] <;> decide
    simp only [verify_authority_status]
    rw [if_neg h1, if_pos h]
  · simp only [verify_authority_status]
    rw [if_neg h1, if_neg h2]
  · have hs : pyUpper (data.operating_status.getD "") = "" := by
      rcases h with h | h <;> rw [h] <;> decide
    simp only [verify_authority_status]
    rw [if_neg (by rw [hs]; decide), if_neg (by rw [hs]; decide)]

/-- Claim C8: a missing, null or empty `safety_rating` is treated as
NOT RATED and yields REVIEW; otherwise the value is upper-cased and
SATISFACTORY gives ACCEPT, CONDITIONAL or UNSATISFACTORY gives DENY, and
anything else gives REVIEW. -/
theorem C8_safety_rating_cases (data : CarrierSnapshot) :
    (data.safety_rating = none ∨ data.safety_rating = some "" →
      verify_safety_rating data = "REVIEW") ∧
    (∀ s, data.safety_rating = some s → s ≠ "" →
      ((pyUpper s = "SATISFACTORY" → verify_safety_rating data = "ACCEPT") ∧
       (pyUpper s = "CONDITIONAL" ∨ pyUpper s = "UNSATISFACTORY" →
         verify_safety_rating data = "DENY") ∧
       (pyUpper s ≠ "SATISFACTORY" →
         ¬(pyUpper s = "CONDITIONAL" ∨ pyUpper s = "UNSATISFACTORY") →
         verify_safety_rating data = "REVIEW"))) := by
  constructor
  · intro h
    rcases h with h | h <;> simp [verify_safety_rating, h]
  · intro s hs hne
    refine ⟨fun h => ?_, fun h => ?_, fun h1 h2 => ?_⟩ <;>
      simp only [verify_safety_rating, hs, if_neg hne]
    · rw [if_pos h]
    · have h1 : pyUpper s ≠ "SATISFACTORY" := by
        rcases h with h | h <;> rw [h] <;> decide
      rw [if_neg h1, if_pos h]
    · rw [if_neg h1, if_neg h2]

/-- Claim C4: the freshness rule denies a missing, empty or unparseable
`mcs_150_form_date` (a parse exception is modelled by the oracle returning
`none` and is mapped to DENY, never propagated); otherwise, with the age in
months computed as days divided by 30, it accepts at age ≤ 12 months,
reviews at 12 < age ≤ 24 and denies beyond 24, the exact 12- and 24-month
boundaries landing on the lower tier. -/
theorem C4_data_freshness_cases (parseDate : String → Option Int) (now : Int)
    (data : CarrierSnapshot) :
    (data.mcs_150_form_date = none →
      verify_data_freshness parseDate now data = "DENY") ∧
    (data.mcs_150_form_date = some "" →
      verify_data_freshness parseDate now data = "DENY") ∧
    (∀ s, data.mcs_150_form_date = some s → s ≠ "" → parseDate s = none →
      verify_data_freshness parseDate now data = "DENY") ∧
    (∀ s t, data.mcs_150_form_date = some s → s ≠ "" → parseDate s = some t →
      ((((now - t : Int) : ℚ) / 30 ≤ 12 →
         verify_data_freshness parseDate now data = "ACCEPT") ∧
       (12 < ((now - t : Int) : ℚ) / 30 → ((now - t : Int) : ℚ) / 30 ≤ 24 →
         verify_data_freshness parseDate now data = "REVIEW") ∧
       (24 < ((now - t : Int) : ℚ) / 30 →
         verify_data_freshness parseDate now data = "DENY"))) := by
  refine ⟨fun h => ?_, fun h => ?_, fun s hs hne hp => ?_, fun s t hs hne hp => ?_⟩
  · simp [verify_data_freshness, h]
  · simp [verify_data_freshness, h]
  · simp [verify_data_freshness, hs, if_neg hne, hp]
  · refine ⟨fun ha => ?_, fun h1 h2 => ?_, fun h1 => ?_⟩ <;>
      simp only [verify_data_freshness, hs, if_neg hne, hp]
    · rw [if_pos ha]
    · rw [if_neg (by linarith), if_pos h2]
    · rw [if_neg (by linarith), if_neg (by linarith)]

theorem filter_chain (l : List Char) :
    (((l.filter (fun x => x != ' ')).filter (fun x => x != '-')).filter
        (fun x => x != '(')).filter (fun x => x != ')') =
      l.filter (fun c => !(c == ' ' || c == '-' || c == '(' || c == ')')) := by
  rw [List.filter_filter, List.filter_filter, List.filter_filter]
  apply List.filter_congr
  intro c _
  cases h1 : c == ' ' <;> cases h2 : c == '-' <;> cases h3 : c == '(' <;>
    cases h4 : c == ')' <;> simp_all

/-- The four sequential single-character removals of the source act as one
filter: spaces, hyphens and parentheses are removed, every other character
is kept, in order. -/
theorem normalizePhone_filter (s : String) :
    (normalizePhone s).data =
      s.data.filter (fun c => !(c == ' ' || c == '-' || c == '(' || c == ')')) :=
  filter_chain s.data

theorem count_map_snd_cons_of_bne (name iv a : String)
    (rest : List (String × String)) (h : (iv == a) = false) :
    (((name, iv) :: rest).map Prod.snd).count a =
      (rest.map Prod.snd).count a := by
  simp [List.count_cons, h]

/-- Claim C1: without the identity short-circuit, the final decision and
reason are determined by the DENY and REVIEW counts over the rule verdicts:
any DENY yields AUTO-REJECT with the DENY-count reason, else two or more
REVIEWs yield CONDITIONAL_APPROVAL with the REVIEW-count reason, else
FULL_APPROVAL with reason "All checks passed" — so a single DENY dominates
any number of REVIEWs, and one lone REVIEW still yields FULL_APPROVAL. -/
theorem C1_final_decision_from_rule_counts (parseDate : String → Option Int)
    (now : Int) (usdot : String) (data : CarrierSnapshot) (p : Option String)
    (hnsc : truthy p = true →
      normalizePhone (data.phone.getD "") = normalizePhone (p.getD "")) :
    ((ruleVerdicts parseDate now data).count "DENY" > 0 →
      (verify_carrier parseDate now usdot data p).final_decision =
          some "AUTO-REJECT" ∧
      (verify_carrier parseDate now usdot data p).reason =
        toString ((ruleVerdicts parseDate now data).count "DENY") ++
          " DENY flag(s) found") ∧
    ((ruleVerdicts parseDate now data).count "DENY" = 0 →
      (ruleVerdicts parseDate now data).count "REVIEW" ≥ 2 →
      (verify_carrier parseDate now usdot data p).final_decision =
          some "CONDITIONAL_APPROVAL" ∧
      (verify_carrier parseDate now usdot data p).reason =
        toString ((ruleVerdicts parseDate now data).count "REVIEW") ++
          " REVIEW flag(s) - requires increased monitoring") ∧
    ((ruleVerdicts parseDate now data).count "DENY" = 0 →
      (ruleVerdicts parseDate now data).count "REVIEW" < 2 →
      (verify_carrier parseDate now usdot data p).final_decision =
          some "FULL_APPROVAL" ∧
      (verify_carrier parseDate now usdot data p).reason =
        "All checks passed") := by
  obtain ⟨iv, ⟨hd, hr⟩, _, hre⟩ :=
    verify_carrier_not_shortcircuited parseDate now usdot data p hnsc
  rw [hre]
  have hcd :
      ((("identity_verification", iv) :: ruleChecks parseDate now data).map
          Prod.snd).count "DENY" =
        (ruleVerdicts parseDate now data).count "DENY" :=
    count_map_snd_cons_of_bne _ _ _ _ hd
  have hcr :
      ((("identity_verification", iv) :: ruleChecks parseDate now data).map
          Prod.snd).count "REVIEW" =
        (ruleVerdicts parseDate now data).count "REVIEW" :=
    count_map_snd_cons_of_bne _ _ _ _ hr
  simp only [aggregate, hcd, hcr, ruleVerdicts]
  refine ⟨fun h => ?_, fun h0 h2 => ?_, fun h0 h2 => ?_⟩
  · rw [if_pos h]
    exact ⟨rfl, rfl⟩
  · rw [if_neg (by omega), if_pos h2]
    exact ⟨rfl, rfl⟩
  · rw [if_neg (by omega), if_neg (by omega)]
    exact ⟨rfl, rfl⟩

/-- Claim C3: on the non-short-circuit path the identity verdict is PASS or
SKIPPED, so counting DENY and REVIEW over the full checks map, as the source
does, equals counting over the eight rule verdicts alone. -/
theorem C3_identity_excluded_from_tally (parseDate : String → Option Int)
    (now : Int) (usdot : String) (data : CarrierSnapshot) (p : Option String)
    (hnsc : truthy p = true →
      normalizePhone (data.phone.getD "") = normalizePhone (p.getD "")) :
    ∃ iv, (iv = "PASS" ∨ iv = "SKIPPED") ∧
      (verify_carrier parseDate now usdot data p).checks =
        ("identity_verification", iv) :: ruleChecks parseDate now data ∧
      ((verify_carrier parseDate now usdot data p).checks.map Prod.snd).count
          "DENY" =
        (ruleVerdicts parseDate now data).count "DENY" ∧
      ((verify_carrier parseDate now usdot data p).checks.map Prod.snd).count
          "REVIEW" =
        (ruleVerdicts parseDate now data).count "REVIEW" := by
  obtain ⟨iv, ⟨hd, hr⟩, hps, hre⟩ :=
    verify_carrier_not_shortcircuited parseDate now usdot data p hnsc
  refine ⟨iv, hps, ?_, ?_, ?_⟩ <;> rw [hre, aggregate_checks]
  · exact count_map_snd_cons_of_bne _ _ _ _ hd
  · exact count_map_snd_cons_of_bne _ _ _ _ hr

/-- Claim C2: with a non-empty claimed phone, both phones are normalized by
removing exactly spaces, hyphens and parentheses (all other characters kept)
and compared for equality; equality yields a PASS identity verdict followed
by all eight rules, inequality short-circuits to AUTO-REJECT with reason
"Phone number mismatch" and a checks map holding only the FAIL identity
entry. -/
theorem C2_identity_check_shortcircuit (parseDate : String → Option Int)
    (now : Int) (usdot : String) (data : CarrierSnapshot) (p : String)
    (hp : p ≠ "") :
    (∀ s : String, (normalizePhone s).data =
      s.data.filter (fun c => !(c == ' ' || c == '-' || c == '(' || c == ')'))) ∧
    (normalizePhone (data.phone.getD "") = normalizePhone p →
      (verify_carrier parseDate now usdot data (some p)).checks =
        ("identity_verification", "PASS") :: ruleChecks parseDate now data) ∧
    (normalizePhone (data.phone.getD "") ≠ normalizePhone p →
      verify_carrier parseDate now usdot data (some p) =
        ⟨usdot, data.legal_name.getD "Unknown", data.dba_name.getD "",
          [("identity_verification", "FAIL")], some "AUTO-REJECT",
          "Phone number mismatch", none⟩) := by
  have ht : truthy (some p) = true := by
    simp [truthy, hp]
  refine ⟨normalizePhone_filter, fun heq => ?_, fun hne => ?_⟩
  · rw [verify_carrier_pass parseDate now usdot data (some p) ht heq,
      aggregate_checks]
  · exact verify_carrier_fail parseDate now usdot data (some p) ht hne

/-- Claim C10: an empty claimed phone is treated exactly as no phone — the
identity verdict is SKIPPED and all eight rules are evaluated — and the FAIL
short-circuit is reachable only for a non-empty claimed phone. -/
theorem C10_empty_phone_skipped (parseDate : String → Option Int) (now : Int)
    (usdot : String) (data : CarrierSnapshot) :
    verify_carrier parseDate now usdot data (some "") =
      verify_carrier parseDate now usdot data none ∧
    (verify_carrier parseDate now usdot data (some "")).checks =
      ("identity_verification", "SKIPPED") :: ruleChecks parseDate now data ∧
    (∀ p : Option String,
      ("identity_verification", "FAIL") ∈
          (verify_carrier parseDate now usdot data p).checks →
      ∃ s, p = some s ∧ s ≠ "") := by
  refine ⟨?_, ?_, ?_⟩
  · rw [verify_carrier_skip parseDate now usdot data (some "") (by decide),
      verify_carrier_skip parseDate now usdot data none (by decide)]
  · rw [verify_carrier_skip parseDate now usdot data (some "") (by decide),
      aggregate_checks]
  · intro p hmem
    cases p with
    | none =>
      exfalso
      rw [verify_carrier_skip parseDate now usdot data none (by decide),
        aggregate_checks] at hmem
      simp [ruleChecks] at hmem
    | some s =>
      refine ⟨s, rfl, ?_⟩
      intro hs
      subst hs
      rw [verify_carrier_skip parseDate now usdot data (some "") (by decide),
        aggregate_checks] at hmem
      simp [ruleChecks] at hmem

/-- Parse oracle that parses every date string to day number 0. -/
def parseConst : String → Option Int := fun _ => some 0

/-- Parse oracle that fails (raises) on every date string. -/
def parseFail : String → Option Int := fun _ => none

/-- A snapshot passing all eight rules when evaluated with `parseConst` at
day 300 (10 months after the filing date). -/
def snapClean : CarrierSnapshot :=
  ⟨some "ACME TRUCKING LLC", some "ACME", some "(555) 123-4567", some "ACTIVE",
    some "2024-12-01", ⟨50, 5⟩, ⟨50, 2⟩, ⟨0, 0⟩, ⟨0, 0, 0⟩, 6,
    some "SATISFACTORY"⟩

/-- As `snapClean` but with a single power unit, so the fleet-size rule
denies. -/
def snapDeny : CarrierSnapshot :=
  ⟨some "ACME TRUCKING LLC", some "ACME", some "(555) 123-4567", some "ACTIVE",
    some "2024-12-01", ⟨50, 5⟩, ⟨50, 2⟩, ⟨0, 0⟩, ⟨0, 0, 0⟩, 1,
    some "SATISFACTORY"⟩

/-- As `snapClean` but with three power units; evaluated at day 600 the
freshness and fleet-size rules both review. -/
def snapTwoReview : CarrierSnapshot :=
  ⟨some "ACME TRUCKING LLC", some "ACME", some "(555) 123-4567", some "ACTIVE",
    some "2024-12-01", ⟨50, 5⟩, ⟨50, 2⟩, ⟨0, 0⟩, ⟨0, 0, 0⟩, 3,
    some "SATISFACTORY"⟩

/-- A snapshot with zero inspections but nonzero out-of-service counts. -/
def snapNoData : CarrierSnapshot :=
  ⟨none, none, none, none, none, ⟨0, 5⟩, ⟨0, 3⟩, ⟨0, 0⟩, ⟨0, 0, 0⟩, 0, none⟩

/-- A snapshot carrying only crash counts (tow, injury, fatal). -/
def mkCrash (t i f : Nat) : CarrierSnapshot :=
  ⟨none, none, none, none, none, ⟨0, 0⟩, ⟨0, 0⟩, ⟨0, 0⟩, ⟨t, i, f⟩, 0, none⟩

/-- A snapshot carrying only an operating status. -/
def mkStatus (os : Option String) : CarrierSnapshot :=
  ⟨none, none, none, os, none, ⟨0, 0⟩, ⟨0, 0⟩, ⟨0, 0⟩, ⟨0, 0, 0⟩, 0, none⟩

/-- A snapshot carrying only a safety rating. -/
def mkRating (sr : Option String) : CarrierSnapshot :=
  ⟨none, none, none, none, none, ⟨0, 0⟩, ⟨0, 0⟩, ⟨0, 0⟩, ⟨0, 0, 0⟩, 0, sr⟩

/-- A snapshot carrying only a filing date. -/
def mkDate (dt : Option String) : CarrierSnapshot :=
  ⟨none, none, none, none, dt, ⟨0, 0⟩, ⟨0, 0⟩, ⟨0, 0⟩, ⟨0, 0, 0⟩, 0, none⟩

theorem ruleVerdicts_snapClean :
    ruleVerdicts parseConst 300 snapClean =
      ["ACCEPT", "ACCEPT", "ACCEPT", "ACCEPT", "ACCEPT", "ACCEPT", "ACCEPT",
        "ACCEPT"] := by
  have hA : pyUpper "ACTIVE" = "ACTIVE" := by decide
  have hS : pyUpper "SATISFACTORY" = "SATISFACTORY" := by decide
  have hd1 : ¬ (("2024-12-01" : String) = "") := by decide
  have hd2 : ¬ (("SATISFACTORY" : String) = "") := by decide
  unfold ruleVerdicts ruleChecks verify_authority_status verify_data_freshness
    verify_vehicle_oos_rate verify_driver_oos_rate verify_crash_history
    verify_inspection_volume verify_fleet_size verify_safety_rating snapClean
    parseConst
  norm_num [hA, hS, hd1, hd2]

theorem ruleVerdicts_snapDeny :
    ruleVerdicts parseConst 300 snapDeny =
      ["ACCEPT", "ACCEPT", "ACCEPT", "ACCEPT", "ACCEPT", "ACCEPT", "DENY",
        "ACCEPT"] := by
  have hA : pyUpper "ACTIVE" = "ACTIVE" := by decide
  have hS : pyUpper "SATISFACTORY" = "SATISFACTORY" := by decide
  have hd1 : ¬ (("2024-12-01" : String) = "") := by decide
  have hd2 : ¬ (("SATISFACTORY" : String) = "") := by decide
  unfold ruleVerdicts ruleChecks verify_authority_status verify_data_freshness
    verify_vehicle_oos_rate verify_driver_oos_rate verify_crash_history
    verify_inspection_volume verify_fleet_size verify_safety_rating snapDeny
    parseConst
  norm_num [hA, hS, hd1, hd2]

theorem ruleVerdicts_snapTwoReview :
    ruleVerdicts parseConst 600 snapTwoReview =
      ["ACCEPT", "REVIEW", "ACCEPT", "ACCEPT", "ACCEPT", "ACCEPT", "REVIEW",
        "ACCEPT"] := by
  have hA : pyUpper "ACTIVE" = "ACTIVE" := by decide
  have hS : pyUpper "SATISFACTORY" = "SATISFACTORY" := by decide
  have hd1 : ¬ (("2024-12-01" : String) = "") := by decide
  have hd2 : ¬ (("SATISFACTORY" : String) = "") := by decide
  unfold ruleVerdicts ruleChecks verify_authority_status verify_data_freshness
    verify_vehicle_oos_rate verify_driver_oos_rate verify_crash_history
    verify_inspection_volume verify_fleet_size verify_safety_rating
    snapTwoReview parseConst
  norm_num [hA, hS, hd1, hd2]

theorem C1_final_decision_from_rule_counts_witness :
    ((ruleVerdicts parseConst 300 snapDeny).count "DENY" > 0 ∧
      (verify_carrier parseConst 300 "100001" snapDeny none).final_decision =
        some "AUTO-REJECT") ∧
    ((ruleVerdicts parseConst 600 snapTwoReview).count "DENY" = 0 ∧
      (ruleVerdicts parseConst 600 snapTwoReview).count "REVIEW" ≥ 2 ∧
      (verify_carrier parseConst 600 "100002" snapTwoReview none).final_decision =
        some "CONDITIONAL_APPROVAL") ∧
    ((ruleVerdicts parseConst 300 snapClean).count "DENY" = 0 ∧
      (ruleVerdicts parseConst 300 snapClean).count "REVIEW" < 2 ∧
      (verify_carrier parseConst 300 "100003" snapClean none).final_decision =
        some "FULL_APPROVAL") := by
  have hd1 : (ruleVerdicts parseConst 300 snapDeny).count "DENY" > 0 := by
    rw [ruleVerdicts_snapDeny]
    decide
  have hd2 : (ruleVerdicts parseConst 600 snapTwoReview).count "DENY" = 0 := by
    rw [ruleVerdicts_snapTwoReview]
    decide
  have hr2 : (ruleVerdicts parseConst 600 snapTwoReview).count "REVIEW" ≥ 2 := by
    rw [ruleVerdicts_snapTwoReview]
    decide
  have hd3 : (ruleVerdicts parseConst 300 snapClean).count "DENY" = 0 := by
    rw [ruleVerdicts_snapClean]
    decide
  have hr3 : (ruleVerdicts parseConst 300 snapClean).count "REVIEW" < 2 := by
    rw [ruleVerdicts_snapClean]
    decide
  refine ⟨⟨hd1, ?_⟩, ⟨hd2, hr2, ?_⟩, ⟨hd3, hr3, ?_⟩⟩
  · exact ((C1_final_decision_from_rule_counts parseConst 300 "100001" snapDeny
      none (fun h => absurd h (by decide))).1 hd1).1
  · exact ((C1_final_decision_from_rule_counts parseConst 600 "100002"
      snapTwoReview none (fun h => absurd h (by decide))).2.1 hd2 hr2).1
  · exact ((C1_final_decision_from_rule_counts parseConst 300 "100003"
      snapClean none (fun h => absurd h (by decide))).2.2 hd3 hr3).1

theorem C2_identity_check_shortcircuit_witness :
    ("555-123-4567" : String) ≠ "" ∧
    (verify_carrier parseConst 300 "100004" snapClean
        (some "555-123-4567")).checks =
      ("identity_verification", "PASS") :: ruleChecks parseConst 300 snapClean ∧
    verify_carrier parseConst 300 "100005" snapClean (some "999") =
      ⟨"100005", "ACME TRUCKING LLC", "ACME",
        [("identity_verification", "FAIL")], some "AUTO-REJECT",
        "Phone number mismatch", none⟩ := by
  refine ⟨by decide, ?_, ?_⟩
  · exact (C2_identity_check_shortcircuit parseConst 300 "100004" snapClean
      "555-123-4567" (by decide)).2.1 (by decide)
  · exact (C2_identity_check_shortcircuit parseConst 300 "100005" snapClean
      "999" (by decide)).2.2 (by decide)

theorem C3_identity_excluded_from_tally_witness :
    (verify_carrier parseConst 300 "100006" snapClean none).checks =
      ("identity_verification", "SKIPPED") ::
        ruleChecks parseConst 300 snapClean ∧
    ((verify_carrier parseConst 300 "100006" snapClean none).checks.map
        Prod.snd).count "DENY" =
      (ruleVerdicts parseConst 300 snapClean).count "DENY" ∧
    ((verify_carrier parseConst 300 "100006" snapClean none).checks.map
        Prod.snd).count "REVIEW" =
      (ruleVerdicts parseConst 300 snapClean).count "REVIEW" := by
  obtain ⟨iv, hps, hchecks, hcd, hcr⟩ :=
    C3_identity_excluded_from_tally parseConst 300 "100006" snapClean none
      (fun h => absurd h (by decide))
  refine ⟨?_, hcd, hcr⟩
  rw [verify_carrier_skip parseConst 300 "100006" snapClean none (by decide),
    aggregate_checks]

theorem C4_data_freshness_cases_witness :
    verify_data_freshness parseConst 300 (mkDate none) = "DENY" ∧
    verify_data_freshness parseConst 300 (mkDate (some "")) = "DENY" ∧
    verify_data_freshness parseFail 300 (mkDate (some "bogus")) = "DENY" ∧
    verify_data_freshness parseConst 360 (mkDate (some "2024-12-01")) =
      "ACCEPT" ∧
    verify_data_freshness parseConst 600 (mkDate (some "2024-12-01")) =
      "REVIEW" ∧
    verify_data_freshness parseConst 720 (mkDate (some "2024-12-01")) =
      "REVIEW" ∧
    verify_data_freshness parseConst 900 (mkDate (some "2024-12-01")) =
      "DENY" := by
  refine ⟨?_, ?_, ?_, ?_, ?_, ?_, ?_⟩
  · exact (C4_data_freshness_cases parseConst 300 (mkDate none)).1 rfl
  · exact (C4_data_freshness_cases parseConst 300 (mkDate (some ""))).2.1 rfl
  · exact (C4_data_freshness_cases parseFail 300
      (mkDate (some "bogus"))).2.2.1 "bogus" rfl (by decide) rfl
  · exact ((C4_data_freshness_cases parseConst 360
      (mkDate (some "2024-12-01"))).2.2.2 "2024-12-01" 0 rfl (by decide)
        rfl).1 (by norm_num)
  · exact ((C4_data_freshness_cases parseConst 600
      (mkDate (some "2024-12-01"))).2.2.2 "2024-12-01" 0 rfl (by decide)
        rfl).2.1 (by norm_num) (by norm_num)
  · exact ((C4_data_freshness_cases parseConst 720
      (mkDate (some "2024-12-01"))).2.2.2 "2024-12-01" 0 rfl (by decide)
        rfl).2.1 (by norm_num) (by norm_num)
  · exact ((C4_data_freshness_cases parseConst 900
      (mkDate (some "2024-12-01"))).2.2.2 "2024-12-01" 0 rfl (by decide)
        rfl).2.2 (by norm_num)

theorem C5_crash_history_first_match_witness :
    verify_crash_history (mkCrash 0 0 1) = "DENY" ∧
    verify_crash_history (mkCrash 5 1 0) = "REVIEW" ∧
    verify_crash_history (mkCrash 1 0 0) = "ACCEPT" ∧
    verify_crash_history (mkCrash 2 0 0) = "REVIEW" := by
  refine ⟨?_, ?_, ?_, ?_⟩
  · exact (C5_crash_history_first_match (mkCrash 0 0 1)).1 (Or.inl (by decide))
  · exact (C5_crash_history_first_match (mkCrash 5 1 0)).2.2.2.2 rfl rfl rfl
  · exact (C5_crash_history_first_match (mkCrash 1 0 0)).2.2.1 rfl rfl
      (by decide)
  · exact (C5_crash_history_first_match (mkCrash 2 0 0)).2.2.2.1 rfl rfl
      (by decide)

theorem C6_oos_rate_division_safe_witness :
    verify_vehicle_oos_rate snapNoData = "REVIEW" ∧
    verify_driver_oos_rate snapNoData = "REVIEW" ∧
    verify_vehicle_oos_rate_checked snapNoData =
      Except.ok (verify_vehicle_oos_rate snapNoData) ∧
    verify_driver_oos_rate_checked snapNoData =
      Except.ok (verify_driver_oos_rate snapNoData) := by
  obtain ⟨h1, h2, h3, h4⟩ := C6_oos_rate_division_safe snapNoData
  exact ⟨h1 rfl, h2 rfl, h3, h4⟩

theorem C7_authority_status_cases_witness :
    verify_authority_status (mkStatus (some "acTive")) = "ACCEPT" ∧
    verify_authority_status (mkStatus (some "Inactive")) = "DENY" ∧
    verify_authority_status (mkStatus (some "PENDING")) = "REVIEW" ∧
    verify_authority_status (mkStatus none) = "REVIEW" := by
  refine ⟨?_, ?_, ?_, ?_⟩
  · exact (C7_authority_status_cases (mkStatus (some "acTive"))).1
      (Or.inl (by decide))
  · exact (C7_authority_status_cases (mkStatus (some "Inactive"))).2.1
      (Or.inr (Or.inl (by decide)))
  · exact (C7_authority_status_cases (mkStatus (some "PENDING"))).2.2.1
      (by decide) (by decide)
  · exact (C7_authority_status_cases (mkStatus none)).2.2.2 (Or.inl rfl)

theorem C8_safety_rating_cases_witness :
    verify_safety_rating (mkRating none) = "REVIEW" ∧
    verify_safety_rating (mkRating (some "")) = "REVIEW" ∧
    verify_safety_rating (mkRating (some "satisfactory")) = "ACCEPT" ∧
    verify_safety_rating (mkRating (some "Conditional")) = "DENY" ∧
    verify_safety_rating (mkRating (some "NOT RATED")) = "REVIEW" := by
  refine ⟨?_, ?_, ?_, ?_, ?_⟩
  · exact (C8_safety_rating_cases (mkRating none)).1 (Or.inl rfl)
  · exact (C8_safety_rating_cases (mkRating (some ""))).1 (Or.inr rfl)
  · exact ((C8_safety_rating_cases (mkRating (some "satisfactory"))).2
      "satisfactory" rfl (by decide)).1 (by decide)
  · exact ((C8_safety_rating_cases (mkRating (some "Conditional"))).2
      "Conditional" rfl (by decide)).2.1 (Or.inl (by decide))
  · exact ((C8_safety_rating_cases (mkRating (some "NOT RATED"))).2
      "NOT RATED" rfl (by decide)).2.2 (by decide) (by decide)

theorem C9_verify_carrier_deterministic_witness :
    verify_carrier parseConst 300 "100007" snapClean (some "555-123-4567") =
      verify_carrier parseConst 300 "100007" snapClean
        (some "555-123-4567") :=
  C9_verify_carrier_deterministic parseConst 300 "100007" snapClean
    (some "555-123-4567")
    (verify_carrier parseConst 300 "100007" snapClean (some "555-123-4567"))
    (verify_carrier parseConst 300 "100007" snapClean (some "555-123-4567"))
    rfl rfl

theorem C10_empty_phone_skipped_witness :
    verify_carrier parseConst 300 "100008" snapClean (some "") =
      verify_carrier parseConst 300 "100008" snapClean none ∧
    ("999" : String) ≠ "" := by
  have h := C10_empty_phone_skipped parseConst 300 "100008" snapClean
  obtain ⟨s, hs, hne⟩ := h.2.2 (some "999") (by decide)
  have hs999 : s = "999" := (Option.some.inj hs).symm
  refine ⟨h.1, ?_⟩
  rw [← hs999]
  exact hne

end CarrierVerifier
